import Mathlib

/-!
Shallow embedding of the compliance-mcp repository (Go) for specification
checking.  The Go package `pkg/compliance` (collector.go, analyzer.go,
types.go) and `pkg/mcp` (types.go) are translated to Lean definitions:

* Go string-typed enums (`ComplianceScanPhase`, `ComplianceScanResult`,
  `ComplianceCheckStatus`, pod phases, condition values, event types) are
  kept as `String` with the same named constants, matching Go's permissive
  string typing (any string value is possible on the wire).
* Go `int` / `int32` counters are modelled as `Nat`: they only ever count
  list elements or sum small restart counts, so overflow is irrelevant here.
* `float64` percentages are modelled as exact rationals (`Rat`); the claims
  under study only involve values that are exact in both representations.
* Time: `time.Time` values and `time.Now()` are modelled as integer
  timestamps in seconds; `time.Since(t)` becomes `now - t` and
  `30*time.Minute` becomes `30 * minute` with `minute = 60`.
* The Kubernetes client (`client.go`) performs network reads; it is modelled
  as a record of responses, one `Except`-valued response per read the
  collector/analyzer performs.  Go maps built by the collector are modelled
  as functions `String → Option _` updated pointwise (last write wins,
  exactly as for a Go map).
-/

/-! ## String enums (pkg/compliance/types.go) -/

abbrev ComplianceScanPhase := String

def PhasePending : ComplianceScanPhase := "PENDING"

def PhaseLaunching : ComplianceScanPhase := "LAUNCHING"

def PhaseRunning : ComplianceScanPhase := "RUNNING"

def PhaseAggregating : ComplianceScanPhase := "AGGREGATING"

def PhaseDone : ComplianceScanPhase := "DONE"

abbrev ComplianceScanResult := String

def ResultNotAvailable : ComplianceScanResult := "NOT-AVAILABLE"

def ResultCompliant : ComplianceScanResult := "COMPLIANT"

def ResultNonCompliant : ComplianceScanResult := "NON-COMPLIANT"

def ResultError : ComplianceScanResult := "ERROR"

def ResultInconsistent : ComplianceScanResult := "INCONSISTENT"

def ResultNotApplicable : ComplianceScanResult := "NOT-APPLICABLE"

abbrev ComplianceCheckStatus := String

def CheckPass : ComplianceCheckStatus := "PASS"

def CheckFail : ComplianceCheckStatus := "FAIL"

def CheckManual : ComplianceCheckStatus := "MANUAL"

def CheckError : ComplianceCheckStatus := "ERROR"

def CheckInfo : ComplianceCheckStatus := "INFO"

/-! ## Data model (pkg/compliance/types.go), restricted to the fields the
program reads.  `metav1.ObjectMeta` is reduced to the object name. -/

structure ComplianceScanStatus where
  Phase : ComplianceScanPhase
  Result : ComplianceScanResult
  ErrorMessage : String
  StartTimestamp : Option Int
  Warnings : String
  deriving DecidableEq

structure ComplianceScanSpec where
  ScanType : String
  Profile : String
  Content : String
  deriving DecidableEq

structure ComplianceScan where
  Name : String
  Spec : ComplianceScanSpec
  Status : ComplianceScanStatus
  deriving DecidableEq

structure ComplianceScanStatusWrapper where
  Name : String
  Phase : ComplianceScanPhase
  Result : ComplianceScanResult
  deriving DecidableEq

structure ComplianceSuiteStatus where
  Phase : ComplianceScanPhase
  Result : ComplianceScanResult
  ErrorMessage : String
  ScanStatuses : List ComplianceScanStatusWrapper
  deriving DecidableEq

structure ComplianceSuite where
  Name : String
  Status : ComplianceSuiteStatus
  deriving DecidableEq

structure ComplianceCheckResult where
  Name : String
  ID : String
  Status : ComplianceCheckStatus
  Severity : String
  Description : String
  Instructions : String
  Rationale : String
  deriving DecidableEq

structure ComplianceRemediation where
  Name : String
  Apply : Bool
  ApplicationState : String
  deriving DecidableEq

/-! ## Kubernetes pod / event views (corev1), restricted to the fields the
program reads.  `pod.Status` is inlined into the pod record. -/

def PodRunning : String := "Running"

def PodPending : String := "Pending"

def PodFailed : String := "Failed"

def PodReady : String := "Ready"

def PodScheduled : String := "PodScheduled"

def ConditionTrue : String := "True"

def ConditionFalse : String := "False"

def EventTypeNormal : String := "Normal"

def EventTypeWarning : String := "Warning"

structure PodCondition where
  /-- corev1 `condition.Type` (the Go field is named `Type`, which is a Lean
  keyword). -/
  CondType : String
  Status : String
  Reason : String
  Message : String
  deriving DecidableEq

structure ContainerStateWaiting where
  Reason : String
  Message : String
  deriving DecidableEq

structure ContainerStateTerminated where
  Reason : String
  deriving DecidableEq

structure ContainerState where
  Waiting : Option ContainerStateWaiting
  Terminated : Option ContainerStateTerminated
  deriving DecidableEq

structure ContainerStatus where
  Name : String
  RestartCount : Nat
  State : ContainerState
  LastTerminationState : ContainerState
  deriving DecidableEq

structure Pod where
  Name : String
  Phase : String
  Reason : String
  Conditions : List PodCondition
  ContainerStatuses : List ContainerStatus
  deriving DecidableEq

structure EventInvolvedObject where
  Kind : String
  Name : String
  deriving DecidableEq

structure Event where
  /-- corev1 `event.Type` (the Go field is named `Type`, which is a Lean
  keyword). -/
  EType : String
  Message : String
  InvolvedObject : EventInvolvedObject
  deriving DecidableEq

/-! ## Collector data model (pkg/compliance/collector.go) -/

structure CheckCounts where
  Pass : Nat
  Fail : Nat
  Manual : Nat
  Error : Nat
  Info : Nat
  Total : Nat
  deriving DecidableEq

structure PodStatus where
  Name : String
  Phase : String
  Reason : String
  Ready : Bool
  Restarts : Nat
  deriving DecidableEq

structure OperatorHealthStatus where
  OperatorPods : List PodStatus
  IsHealthy : Bool
  Issues : List String
  deriving DecidableEq

/-- `GetCheckCounts` loop body: increment `Total`, then switch on the
check's `Status` over the five known constants (no default case). -/
def countStep (counts : CheckCounts) (check : ComplianceCheckResult) : CheckCounts :=
  let counts := { counts with Total := counts.Total + 1 }
  if check.Status = CheckPass then { counts with Pass := counts.Pass + 1 }
  else if check.Status = CheckFail then { counts with Fail := counts.Fail + 1 }
  else if check.Status = CheckManual then { counts with Manual := counts.Manual + 1 }
  else if check.Status = CheckError then { counts with Error := counts.Error + 1 }
  else if check.Status = CheckInfo then { counts with Info := counts.Info + 1 }
  else counts

/-- collector.go `GetCheckCounts`: fold `countStep` over the results,
starting from the zero-valued `CheckCounts{}`. -/
def GetCheckCounts (checkResults : List ComplianceCheckResult) : CheckCounts :=
  checkResults.foldl countStep { Pass := 0, Fail := 0, Manual := 0, Error := 0, Info := 0, Total := 0 }

/-- collector.go `CalculateCompliancePercentage`.  Returns 0 when `Total`
is 0, then 0 when `Pass + Fail` is 0, otherwise `(Pass / (Pass+Fail)) * 100`
(a `float64` in Go, modelled as an exact rational). -/
def CalculateCompliancePercentage (counts : CheckCounts) : Rat :=
  if counts.Total = 0 then 0
  else
    let automatedChecks := counts.Pass + counts.Fail
    if automatedChecks = 0 then 0
    else ((counts.Pass : Rat) / (automatedChecks : Rat)) * 100

/-- A status is one of the five constants `GetCheckCounts` tallies. -/
def knownStatus (check : ComplianceCheckResult) : Bool :=
  check.Status == CheckPass || check.Status == CheckFail || check.Status == CheckManual ||
    check.Status == CheckError || check.Status == CheckInfo

lemma countStep_Total (counts : CheckCounts) (check : ComplianceCheckResult) :
    (countStep counts check).Total = counts.Total + 1 := by
  unfold countStep
  split <;> [skip; split] <;> [rfl; rfl; skip]
  split <;> [rfl; split] <;> [rfl; split] <;> rfl

lemma foldl_countStep_Total (l : List ComplianceCheckResult) (counts : CheckCounts) :
    (l.foldl countStep counts).Total = counts.Total + l.length := by
  induction l generalizing counts with
  | nil => simp
  | cons c t ih =>
      simp only [List.foldl_cons, List.length_cons, ih, countStep_Total]
      omega

/-- Sum of the five status buckets. -/
def bucketSum (counts : CheckCounts) : Nat :=
  counts.Pass + counts.Fail + counts.Manual + counts.Error + counts.Info

lemma countStep_bucketSum_of_known (counts : CheckCounts) (check : ComplianceCheckResult)
    (h : knownStatus check = true) :
    bucketSum (countStep counts check) = bucketSum counts + 1 := by
  unfold knownStatus at h
  unfold countStep bucketSum
  simp only [Bool.or_eq_true, beq_iff_eq] at h
  rcases h with ((((h | h) | h) | h) | h) <;> simp [h, CheckPass, CheckFail, CheckManual, CheckError, CheckInfo] <;> omega

lemma foldl_countStep_bucketSum (l : List ComplianceCheckResult) (counts : CheckCounts)
    (h : l.all knownStatus = true) :
    bucketSum (l.foldl countStep counts) = bucketSum counts + l.length := by
  induction l generalizing counts with
  | nil => simp
  | cons c t ih =>
      simp only [List.all_cons, Bool.and_eq_true] at h
      simp only [List.foldl_cons, List.length_cons,
        ih _ h.2, countStep_bucketSum_of_known _ _ h.1]
      omega

/-! ## Operator health (collector.go `collectOperatorStatus`) -/

/-- collector.go `isPodReady`: return the status of the first condition of
type `Ready` (Go returns inside the loop at the first match), `false` when
no such condition exists. -/
def isPodReady (pod : Pod) : Bool :=
  match pod.Conditions.find? (fun c => c.CondType == PodReady) with
  | some c => c.Status == ConditionTrue
  | none => false

/-- `podStatus.Restarts` accumulation: sum of the pod's container restart
counts (Go: `podStatus.Restarts += cs.RestartCount` over all containers). -/
def sumRestarts (pod : Pod) : Nat :=
  pod.ContainerStatuses.foldl (fun acc cs => acc + cs.RestartCount) 0

/-- Issue string recorded when a pod's summed restart count exceeds 5
(Go: `fmt.Sprintf("Pod %s has restarted %d times", ...)`). -/
def restartIssueString (pod : Pod) : String :=
  "Pod " ++ pod.Name ++ " has restarted " ++ toString (sumRestarts pod) ++ " times"

/-- Body of the per-pod loop in collector.go `collectOperatorStatus`:
record phase/readiness problems (marking unhealthy), then the restart
issue (not marking unhealthy), then append the pod's `PodStatus`. -/
def processPod (status : OperatorHealthStatus) (pod : Pod) : OperatorHealthStatus :=
  let ready := isPodReady pod
  let restarts := sumRestarts pod
  let phaseBad := pod.Phase != PodRunning
  let s1 :=
    if phaseBad then
      { status with IsHealthy := false,
                    Issues := status.Issues ++ ["Pod " ++ pod.Name ++ " is in phase " ++ pod.Phase] }
    else status
  let s2 :=
    if !ready then
      { s1 with IsHealthy := false, Issues := s1.Issues ++ ["Pod " ++ pod.Name ++ " is not ready"] }
    else s1
  let s3 :=
    if restarts > 5 then { s2 with Issues := s2.Issues ++ [restartIssueString pod] }
    else s2
  let podStatus : PodStatus :=
    { Name := pod.Name, Phase := pod.Phase,
      Reason := if phaseBad then pod.Phase else "",
      Ready := ready, Restarts := restarts }
  { s3 with OperatorPods := s3.OperatorPods ++ [podStatus] }

/-- collector.go `collectOperatorStatus`, given the listed operator pods:
zero pods is unhealthy with a single issue and no per-pod loop; otherwise
fold the per-pod loop body over the pods. -/
def collectOperatorStatusFromPods (pods : List Pod) : OperatorHealthStatus :=
  if pods.isEmpty then
    { OperatorPods := [], IsHealthy := false, Issues := ["No compliance operator pods found"] }
  else
    pods.foldl processPod { OperatorPods := [], IsHealthy := true, Issues := [] }

/-! ## Diagnosis engine (pkg/compliance/analyzer.go) -/

abbrev IssueType := String

def IssueTypeStuckScan : IssueType := "StuckScan"

def IssueTypeFailedPod : IssueType := "FailedPod"

def IssueTypePermission : IssueType := "Permission"

def IssueTypeResourceConstraint : IssueType := "ResourceConstraint"

def IssueTypeOOM : IssueType := "OutOfMemory"

def IssueTypeMisconfiguration : IssueType := "Misconfiguration"

abbrev IssueSeverity := String

def SeverityCritical : IssueSeverity := "Critical"

def SeverityWarning : IssueSeverity := "Warning"

def SeverityInfo : IssueSeverity := "Info"

structure Issue where
  /-- analyzer.go `Issue.Type` (the Go field is named `Type`, which is a
  Lean keyword). -/
  IType : IssueType
  Severity : IssueSeverity
  Description : String
  Resources : List String
  Suggestion : String
  deriving DecidableEq

/-- One second; `time.Time` values are modelled as integer timestamps in
seconds, so `time.Minute` scales to 60. -/
def minute : Int := 60

/-- Per-scan body of the loop in analyzer.go `DetectStuckScans`: the
RUNNING check (> 30 min), the LAUNCHING check (> 10 min), then the ERROR
result check.  `time.Since(t)` is `now - t`.  The Go descriptions render
the elapsed duration via `elapsed.Round(time.Minute)`; here the elapsed
seconds are rendered directly, since no property concerns that text. -/
def detectStuckScanIssues (now : Int) (scan : ComplianceScan) : List Issue :=
  (if scan.Status.Phase = PhaseRunning then
     match scan.Status.StartTimestamp with
     | some t =>
         if now - t > 30 * minute then
           [{ IType := IssueTypeStuckScan, Severity := SeverityCritical,
              Description := "Scan " ++ scan.Name ++ " has been in RUNNING phase for " ++ toString (now - t),
              Resources := [scan.Name],
              Suggestion := "Check scanner pod logs and events. The scan may be stuck due to pod failures, resource constraints, or permission issues." }]
         else []
     | none => []
   else []) ++
  (if scan.Status.Phase = PhaseLaunching then
     match scan.Status.StartTimestamp with
     | some t =>
         if now - t > 10 * minute then
           [{ IType := IssueTypeStuckScan, Severity := SeverityCritical,
              Description := "Scan " ++ scan.Name ++ " stuck in LAUNCHING phase",
              Resources := [scan.Name],
              Suggestion := "Check if scanner pods are being created. Look for resource constraints or ImagePullBackOff errors." }]
         else []
     | none => []
   else []) ++
  (if scan.Status.Result = ResultError then
     [{ IType := IssueTypeFailedPod, Severity := SeverityCritical,
        Description := "Scan " ++ scan.Name ++ " completed with ERROR result: " ++ scan.Status.ErrorMessage,
        Resources := [scan.Name],
        Suggestion := "Review scan logs and error message. Common causes include missing content, invalid profiles, or scanner pod failures." }]
   else [])

/-- analyzer.go `DetectStuckScans`: the loop appends the per-scan issues in
order. -/
def DetectStuckScans (now : Int) (scans : List ComplianceScan) : List Issue :=
  scans.flatMap (detectStuckScanIssues now)

/-- Issues contributed by one container's waiting state in
analyzer.go `DetectFailedPods` (image pull / crash loop). -/
def waitingIssues (pod : Pod) (cs : ContainerStatus) : List Issue :=
  match cs.State.Waiting with
  | some w =>
      if w.Reason = "ImagePullBackOff" || w.Reason = "ErrImagePull" then
        [{ IType := IssueTypeFailedPod, Severity := SeverityCritical,
           Description := "Pod " ++ pod.Name ++ " cannot pull image: " ++ w.Message,
           Resources := [pod.Name],
           Suggestion := "Verify image name and registry credentials. Check network connectivity to image registry." }]
      else if w.Reason = "CrashLoopBackOff" then
        [{ IType := IssueTypeFailedPod, Severity := SeverityCritical,
           Description := "Pod " ++ pod.Name ++ " is crash looping",
           Resources := [pod.Name],
           Suggestion := "Check container logs for crash details. The scanner may be encountering a runtime error." }]
      else []
  | none => []

/-- Issues contributed by one container's last termination state in
analyzer.go `DetectFailedPods` (OOM kill). -/
def oomIssues (pod : Pod) (cs : ContainerStatus) : List Issue :=
  match cs.LastTerminationState.Terminated with
  | some t =>
      if t.Reason = "OOMKilled" then
        [{ IType := IssueTypeOOM, Severity := SeverityCritical,
           Description := "Container " ++ cs.Name ++ " in pod " ++ pod.Name ++ " was killed due to out of memory",
           Resources := [pod.Name],
           Suggestion := "Increase memory limits for scanner pods in ScanSetting. The scan requires more memory than allocated." }]
      else []
  | none => []

/-- Issues contributed by one container's restart count in
analyzer.go `DetectFailedPods` (high restart count, Warning). -/
def restartIssues (pod : Pod) (cs : ContainerStatus) : List Issue :=
  if cs.RestartCount > 5 then
    [{ IType := IssueTypeFailedPod, Severity := SeverityWarning,
       Description := "Container " ++ cs.Name ++ " in pod " ++ pod.Name ++ " has restarted " ++ toString cs.RestartCount ++ " times",
       Resources := [pod.Name],
       Suggestion := "Investigate why the container is restarting. Check logs for errors." }]
  else []

/-- Per-pod body of analyzer.go `DetectFailedPods`: failed-phase issue,
then one loop over containers for waiting/OOM issues, then a second loop
over containers for restart issues. -/
def podFailedIssues (pod : Pod) : List Issue :=
  (if pod.Phase = PodFailed then
     [{ IType := IssueTypeFailedPod, Severity := SeverityCritical,
        Description := "Scanner pod " ++ pod.Name ++ " failed with reason: " ++ pod.Reason,
        Resources := [pod.Name],
        Suggestion := "Check pod logs for error details. The scanner may have encountered an error during scan execution." }]
   else []) ++
  pod.ContainerStatuses.flatMap (fun cs => waitingIssues pod cs ++ oomIssues pod cs) ++
  pod.ContainerStatuses.flatMap (restartIssues pod)

/-- analyzer.go `DetectFailedPods`: the loop appends the per-pod issues in
order. -/
def DetectFailedPods (pods : List Pod) : List Issue :=
  pods.flatMap podFailedIssues

/-- Whether `needle` is a prefix of `hay` (character lists). -/
def startsWith : List Char → List Char → Bool
  | _, [] => true
  | [], _ :: _ => false
  | h :: t, n :: ns => h == n && startsWith t ns

/-- Go `strings.Contains(hay, needle)` on character lists: `needle` occurs
as a contiguous run of `hay`. -/
def containsSub : List Char → List Char → Bool
  | [], needle => startsWith [] needle
  | h :: t, needle => startsWith (h :: t) needle || containsSub t needle

/-- Go `strings.Contains` on strings. -/
def strContains (hay needle : String) : Bool :=
  containsSub hay.toList needle.toList

/-- analyzer.go `DetectResourceConstraints` (case-sensitive
`strings.Contains` on the condition reason and message). -/
def DetectResourceConstraints (pods : List Pod) : List Issue :=
  pods.flatMap (fun pod =>
    if pod.Phase = PodPending then
      pod.Conditions.flatMap (fun condition =>
        if condition.CondType = PodScheduled && condition.Status = ConditionFalse then
          if strContains condition.Reason ("Insufficient") ||
              strContains condition.Message ("Insufficient") then
            [{ IType := IssueTypeResourceConstraint, Severity := SeverityCritical,
               Description := "Pod " ++ pod.Name ++ " cannot be scheduled: " ++ condition.Message,
               Resources := [pod.Name],
               Suggestion := "Increase cluster resources or reduce scanner pod resource requests in ScanSetting." }]
          else []
        else [])
    else [])

/-! ## Permission issues (analyzer.go `DetectPermissionIssuesForScan`) -/

/-- analyzer.go `permissionKeywords`. -/
def permissionKeywords : List String :=
  ["Forbidden", "Unauthorized", "denied", "insufficient permissions",
   "cannot create", "cannot get", "cannot list"]

/-- The inner keyword loop of `DetectPermissionIssuesForScan`: does the
message contain any permission keyword?  (The Go loop breaks at the first
matching keyword; since the issue it builds does not depend on which
keyword matched, the break-at-first-match loop amounts to this test.) -/
def hasPermissionKeyword (message : String) : Bool :=
  permissionKeywords.any (fun kw => strContains message kw)

/-- Issues contributed by one event in `DetectPermissionIssuesForScan`:
one Critical Permission issue when the event is a Warning whose message
contains a permission keyword, nothing otherwise. -/
def permissionIssuesForEvent (scanName : String) (event : Event) : List Issue :=
  if event.EType == EventTypeWarning then
    if hasPermissionKeyword event.Message then
      [{ IType := IssueTypePermission, Severity := SeverityCritical,
         Description := "Permission issue in scan " ++ scanName ++ ": " ++ event.Message,
         Resources := [scanName, event.InvolvedObject.Name],
         Suggestion := "Check ServiceAccount permissions and RBAC configuration. The compliance operator may not have sufficient permissions." }]
    else []
  else []

/-! ## Client model.  client.go wraps the Kubernetes API; each read the
collector/analyzer performs is modelled as a fixed `Except`-valued
response (errors carry the wrapped message text). -/

structure ComplianceClient where
  /-- `GetComplianceSuites(ctx)`. -/
  suites : Except String (List ComplianceSuite)
  /-- `GetComplianceScans(ctx, "")` — the unfiltered scan listing. -/
  scans : Except String (List ComplianceScan)
  /-- `GetComplianceCheckResults(ctx, scanName, "")`, by scan name. -/
  checkResults : String → Except String (List ComplianceCheckResult)
  /-- `GetComplianceRemediations(ctx, scanName)`, by scan name. -/
  remediations : String → Except String (List ComplianceRemediation)
  /-- `GetOperatorPods(ctx)`. -/
  operatorPods : Except String (List Pod)
  /-- `GetEvents(ctx, "ComplianceScan", scanName)`, by scan name. -/
  events : String → Except String (List Event)

/-- analyzer.go `DetectPermissionIssuesForScan`: on an event-listing error
Go returns the empty issue list together with the error (modelled as the
error branch); otherwise the event loop appends per-event issues. -/
def DetectPermissionIssuesForScan (c : ComplianceClient) (scanName : String) :
    Except String (List Issue) :=
  match c.events scanName with
  | Except.error e => Except.error e
  | Except.ok events => Except.ok (events.flatMap (permissionIssuesForEvent scanName))

/-- analyzer.go `AnalyzeScanFailure`: early return unless the result is
ERROR or NON-COMPLIANT; then a Critical issue when the scan has a
non-empty error message; then a Warning issue when the result is
NON-COMPLIANT. -/
def AnalyzeScanFailure (scan : ComplianceScan) : List Issue :=
  if scan.Status.Result ≠ ResultError ∧ scan.Status.Result ≠ ResultNonCompliant then []
  else
    (if scan.Status.ErrorMessage ≠ "" then
       [{ IType := IssueTypeFailedPod, Severity := SeverityCritical,
          Description := "Scan " ++ scan.Name ++ " failed: " ++ scan.Status.ErrorMessage,
          Resources := [scan.Name],
          Suggestion := "Review the error message and check scanner pod logs for more details." }]
     else []) ++
    (if scan.Status.Result = ResultNonCompliant then
       [{ IType := IssueTypeMisconfiguration, Severity := SeverityWarning,
          Description := "Scan " ++ scan.Name ++ " found compliance violations",
          Resources := [scan.Name],
          Suggestion := "Review failed checks and apply available remediations. Some checks may require manual remediation." }]
     else [])

/-! ## Snapshot collector (collector.go `CollectAllData`) -/

/-- Pointwise update of a map modelled as `String → Option V` (a Go map
write `m[k] = v`). -/
def updateMap {V : Type} (m : String → Option V) (k : String) (v : V) :
    String → Option V :=
  fun q => if q = k then some v else m q

structure ComplianceData where
  Suites : List ComplianceSuite
  Scans : String → Option ComplianceScan
  CheckResults : String → Option (List ComplianceCheckResult)
  Remediations : String → Option (List ComplianceRemediation)
  OperatorStatus : OperatorHealthStatus

/-- Per-scan body of the loop in `CollectAllData`: record the scan, then
record its check results only when that fetch succeeds, then record its
remediations only when that fetch succeeds. -/
def collectScanStep (c : ComplianceClient) (data : ComplianceData)
    (scan : ComplianceScan) : ComplianceData :=
  let data := { data with Scans := updateMap data.Scans scan.Name scan }
  let data :=
    match c.checkResults scan.Name with
    | Except.ok rs => { data with CheckResults := updateMap data.CheckResults scan.Name rs }
    | Except.error _ => data
  match c.remediations scan.Name with
  | Except.ok rs => { data with Remediations := updateMap data.Remediations scan.Name rs }
  | Except.error _ => data

/-- collector.go `collectOperatorStatus`: a pod-listing failure is wrapped
and surfaced (Go returns the partially-initialised status together with the
error; the caller only uses the error, so the model returns `error`);
otherwise the pods are processed as in `collectOperatorStatusFromPods`. -/
def collectOperatorStatus (c : ComplianceClient) : Except String OperatorHealthStatus :=
  match c.operatorPods with
  | Except.error e => Except.error ("failed to get operator pods: " ++ e)
  | Except.ok pods => Except.ok (collectOperatorStatusFromPods pods)

/-- collector.go `CollectAllData`: suites and the scan listing are fatal
when they fail; the per-scan fetches are non-fatal (`collectScanStep`);
the operator-status collection is fatal when it fails.  The Go
`Timestamp: time.Now()` field is wall-clock time and is not modelled. -/
def CollectAllData (c : ComplianceClient) : Except String ComplianceData :=
  match c.suites with
  | Except.error e => Except.error ("failed to collect suites: " ++ e)
  | Except.ok suites =>
    match c.scans with
    | Except.error e => Except.error ("failed to collect scans: " ++ e)
    | Except.ok allScans =>
      let data : ComplianceData :=
        { Suites := suites, Scans := fun _ => none, CheckResults := fun _ => none,
          Remediations := fun _ => none,
          OperatorStatus := { OperatorPods := [], IsHealthy := false, Issues := [] } }
      let data := allScans.foldl (collectScanStep c) data
      match collectOperatorStatus c with
      | Except.error e => Except.error ("failed to collect operator status: " ++ e)
      | Except.ok operatorStatus => Except.ok { data with OperatorStatus := operatorStatus }

/-- `Except` value is an error. -/
def exceptIsError {ε α : Type} : Except ε α → Bool
  | Except.error _ => true
  | Except.ok _ => false

/-! ## Status overview result-count table (pkg/mcp/types.go,
`ComplianceStatusOverview`).  The Go code builds
`resultCounts := make(map[ComplianceScanResult]int)` from the suite's scan
statuses and then writes one line per entry with
`for result, count := range resultCounts` — a Go map `range`, whose order
is unspecified.  The map contents are modelled by `countScanResults`, and
one possible `range` enumeration is any list of the map's entries; the
line-writing loop over such an enumeration is `formatResultCountLines`. -/

def countScanResults (statuses : List ComplianceScanStatusWrapper) :
    ComplianceScanResult → Nat :=
  fun r => (statuses.filter (fun s => s.Result == r)).length

def formatResultCountLines (entries : List (ComplianceScanResult × Nat)) : String :=
  entries.foldl (fun out e => out ++ "  - " ++ e.1 ++ ": " ++ toString e.2 ++ "\n") ""

/-! ## Helper lemmas about the collector fold -/

lemma collectScanStep_CheckResults (c : ComplianceClient) (d : ComplianceData)
    (s : ComplianceScan) (m : String) :
    (collectScanStep c d s).CheckResults m =
      if m = s.Name then
        (match c.checkResults m with
         | Except.ok rs => some rs
         | Except.error _ => d.CheckResults m)
      else d.CheckResults m := by
  by_cases hm : m = s.Name <;>
    cases hcr : c.checkResults s.Name <;> cases hrm : c.remediations s.Name <;>
      simp [collectScanStep, updateMap, hcr, hrm, hm]

lemma collectScanStep_Scans (c : ComplianceClient) (d : ComplianceData)
    (s : ComplianceScan) (m : String) :
    (collectScanStep c d s).Scans m = if m = s.Name then some s else d.Scans m := by
  unfold collectScanStep updateMap
  cases hcr : c.checkResults s.Name <;> cases hrm : c.remediations s.Name <;> simp [hcr, hrm]

lemma foldl_collectScanStep_CheckResults (c : ComplianceClient)
    (scans : List ComplianceScan) (d : ComplianceData) (m : String) :
    ((scans.foldl (collectScanStep c) d).CheckResults m) =
      if scans.any (fun s => s.Name == m) then
        (match c.checkResults m with
         | Except.ok rs => some rs
         | Except.error _ => d.CheckResults m)
      else d.CheckResults m := by
  induction scans generalizing d with
  | nil => simp
  | cons s t ih =>
      simp only [List.foldl_cons, List.any_cons, ih, collectScanStep_CheckResults]
      by_cases hm : s.Name = m
      · cases hcr : c.checkResults m <;> simp [hm, hcr]
      · have hm' : ¬ m = s.Name := fun h => hm h.symm
        by_cases ht : t.any (fun s => s.Name == m) = true <;>
          cases hcr : c.checkResults m <;> simp [hm, hm', ht, hcr]

lemma foldl_collectScanStep_Scans_isSome (c : ComplianceClient)
    (scans : List ComplianceScan) (d : ComplianceData) (m : String)
    (h : ((d.Scans m).isSome = true) ∨ scans.any (fun s => s.Name == m) = true) :
    (((scans.foldl (collectScanStep c) d).Scans m).isSome = true) := by
  induction scans generalizing d with
  | nil =>
      simp only [List.any_nil] at h
      simpa using h.resolve_right (by simp)
  | cons s t ih =>
      simp only [List.any_cons, Bool.or_eq_true, beq_iff_eq] at h
      refine ih (collectScanStep c d s) ?_
      rw [collectScanStep_Scans]
      by_cases hm : m = s.Name
      · exact Or.inl (by simp [hm])
      · rcases h with hd | (hs | ht)
        · exact Or.inl (by simp [hm, hd])
        · exact absurd hs.symm hm
        · exact Or.inr (by simpa using ht)

/-! ## Claim theorems -/

/-- A check result with a status outside the five tallied constants. -/
def bogusCheck : ComplianceCheckResult :=
  { Name := "c", ID := "", Status := "BOGUS", Severity := "", Description := "",
    Instructions := "", Rationale := "" }

def passCheck : ComplianceCheckResult :=
  { Name := "p", ID := "", Status := CheckPass, Severity := "", Description := "",
    Instructions := "", Rationale := "" }

def failCheck : ComplianceCheckResult :=
  { Name := "f", ID := "", Status := CheckFail, Severity := "", Description := "",
    Instructions := "", Rationale := "" }

/-- Claim C1, counterexample: on a list whose single element carries a
status outside the five known constants, `GetCheckCounts` returns
`Total = 1` while the five status buckets sum to `0`, so
`Total = Pass+Fail+Manual+Error+Info` fails for that possible status
value. -/
theorem c1_getCheckCounts_cex :
    (GetCheckCounts [bogusCheck]).Total = 1 ∧
    (GetCheckCounts [bogusCheck]).Pass + (GetCheckCounts [bogusCheck]).Fail +
      (GetCheckCounts [bogusCheck]).Manual + (GetCheckCounts [bogusCheck]).Error +
      (GetCheckCounts [bogusCheck]).Info = 0 := by
  decide

/-- Claim C1 (amended): for every list of check results of length N,
`GetCheckCounts` returns `Total = N`; and when every status in the list is
one of the five known constants (PASS, FAIL, MANUAL, ERROR, INFO),
`Total = Pass+Fail+Manual+Error+Info` as well. -/
theorem c1_getCheckCounts_total (results : List ComplianceCheckResult) :
    (GetCheckCounts results).Total = results.length ∧
    (results.all knownStatus = true →
      (GetCheckCounts results).Total =
        (GetCheckCounts results).Pass + (GetCheckCounts results).Fail +
          (GetCheckCounts results).Manual + (GetCheckCounts results).Error +
          (GetCheckCounts results).Info) := by
  constructor
  · unfold GetCheckCounts
    rw [foldl_countStep_Total]
    simp
  · intro h
    have hb := foldl_countStep_bucketSum results
      { Pass := 0, Fail := 0, Manual := 0, Error := 0, Info := 0, Total := 0 } h
    unfold bucketSum at hb
    unfold GetCheckCounts
    rw [foldl_countStep_Total, hb]
    simp

/-- Witness for `c1_getCheckCounts_total` at a concrete two-element list. -/
theorem c1_getCheckCounts_total_witness :
    ([passCheck, failCheck].all knownStatus = true) ∧
    (GetCheckCounts [passCheck, failCheck]).Total =
      (GetCheckCounts [passCheck, failCheck]).Pass +
        (GetCheckCounts [passCheck, failCheck]).Fail +
        (GetCheckCounts [passCheck, failCheck]).Manual +
        (GetCheckCounts [passCheck, failCheck]).Error +
        (GetCheckCounts [passCheck, failCheck]).Info :=
  ⟨by decide, (c1_getCheckCounts_total ([passCheck, failCheck])).2 (by decide)⟩

/-- A `CheckCounts` value with automated checks but `Total = 0`
(expressible in Go, where the struct fields are independent). -/
def cexCounts : CheckCounts :=
  { Pass := 3, Fail := 1, Manual := 0, Error := 0, Info := 0, Total := 0 }

/-- Claim C8, counterexample: for the `CheckCounts` value with `Pass = 3`,
`Fail = 1` but `Total = 0`, the code returns 0, not `100 × Pass / (Pass +
Fail) = 75`: the `Total == 0` guard fires before the `Pass + Fail` base is
examined, so the claimed formula does not hold for every `CheckCounts`
value. -/
theorem c8_percentage_cex :
    cexCounts.Pass + cexCounts.Fail > 0 ∧
    CalculateCompliancePercentage cexCounts = 0 ∧
    ¬ CalculateCompliancePercentage cexCounts =
        100 * (cexCounts.Pass : Rat) / ((cexCounts.Pass : Rat) + (cexCounts.Fail : Rat)) := by
  refine ⟨by norm_num [cexCounts], by norm_num [CalculateCompliancePercentage, cexCounts], ?_⟩
  norm_num [CalculateCompliancePercentage, cexCounts]

/-- Claim C8 (amended): whenever `Total ≠ 0`, `CalculateCompliancePercentage`
returns `100 × Pass / (Pass + Fail)` when `Pass + Fail > 0` and `0` when
`Pass + Fail = 0` (Manual/Error/Info excluded from the base); when
`Total = 0` it returns 0.  The claim's three example values hold once
`Total` is set consistently with the field sums: `{Pass:3, Fail:1,
Manual:2, Total:6} → 75`, `{Pass:0, Fail:0, Total:0} → 0`,
`{Pass:5, Fail:0, Total:5} → 100`. -/
theorem c8_percentage :
    (∀ counts : CheckCounts, counts.Total ≠ 0 →
      CalculateCompliancePercentage counts =
        (if counts.Pass + counts.Fail = 0 then 0
         else 100 * (counts.Pass : Rat) / ((counts.Pass : Rat) + (counts.Fail : Rat)))) ∧
    CalculateCompliancePercentage
      { Pass := 3, Fail := 1, Manual := 2, Error := 0, Info := 0, Total := 6 } = 75 ∧
    CalculateCompliancePercentage
      { Pass := 0, Fail := 0, Manual := 0, Error := 0, Info := 0, Total := 0 } = 0 ∧
    CalculateCompliancePercentage
      { Pass := 5, Fail := 0, Manual := 0, Error := 0, Info := 0, Total := 5 } = 100 := by
  refine ⟨?_, by norm_num [CalculateCompliancePercentage],
    by norm_num [CalculateCompliancePercentage],
    by norm_num [CalculateCompliancePercentage]⟩
  intro counts h
  unfold CalculateCompliancePercentage
  rw [if_neg h]
  by_cases h2 : counts.Pass + counts.Fail = 0
  · simp [h2]
  · rw [if_neg h2, if_neg h2]
    push_cast
    ring

/-- Witness for `c8_percentage` at `{Pass:3, Fail:1, Manual:2, Total:6}`. -/
theorem c8_percentage_witness :
    ({ Pass := 3, Fail := 1, Manual := 2, Error := 0, Info := 0, Total := 6 } : CheckCounts).Total ≠ 0 ∧
    CalculateCompliancePercentage
        { Pass := 3, Fail := 1, Manual := 2, Error := 0, Info := 0, Total := 6 } =
      (if ({ Pass := 3, Fail := 1, Manual := 2, Error := 0, Info := 0, Total := 6 } : CheckCounts).Pass +
            ({ Pass := 3, Fail := 1, Manual := 2, Error := 0, Info := 0, Total := 6 } : CheckCounts).Fail = 0
       then 0
       else 100 * (({ Pass := 3, Fail := 1, Manual := 2, Error := 0, Info := 0, Total := 6 } : CheckCounts).Pass : Rat) /
         ((({ Pass := 3, Fail := 1, Manual := 2, Error := 0, Info := 0, Total := 6 } : CheckCounts).Pass : Rat) +
           (({ Pass := 3, Fail := 1, Manual := 2, Error := 0, Info := 0, Total := 6 } : CheckCounts).Fail : Rat))) :=
  ⟨by decide, c8_percentage.1
    { Pass := 3, Fail := 1, Manual := 2, Error := 0, Info := 0, Total := 6 } (by decide)⟩

/-- Claim C10: when listing the operator pods fails, `CollectAllData`
fails as a whole with the wrapped error — even though the suites list and
the scan list succeeded (and regardless of any per-scan fetch outcome). -/
theorem c10_collectAllData_operator_fatal (c : ComplianceClient)
    (suites : List ComplianceSuite) (scans : List ComplianceScan) (e : String)
    (hsu : c.suites = Except.ok suites)
    (hsc : c.scans = Except.ok scans)
    (hop : c.operatorPods = Except.error e) :
    CollectAllData c =
      Except.error ("failed to collect operator status: " ++ ("failed to get operator pods: " ++ e)) := by
  unfold CollectAllData collectOperatorStatus
  rw [hsu, hsc, hop]

/-- Claim C2: when the suites and scan listings succeed, the operator-pod
listing succeeds, and the check-result fetch for one of the listed scans
fails, `CollectAllData` still succeeds; the returned snapshot has that
scan as a key of `Scans` but not of `CheckResults`; and every other name's
`CheckResults` entry is exactly what that name's own presence in the scan
list and its own fetch response determine — the failing fetch affects no
other entry. -/
theorem c2_collectAllData_partial_failure (c : ComplianceClient)
    (suites : List ComplianceSuite) (scans : List ComplianceScan)
    (scan : ComplianceScan) (ops : List Pod)
    (hsu : c.suites = Except.ok suites)
    (hsc : c.scans = Except.ok scans)
    (hmem : scan ∈ scans)
    (hcr : exceptIsError (c.checkResults scan.Name) = true)
    (hop : c.operatorPods = Except.ok ops) :
    ∃ d, CollectAllData c = Except.ok d ∧
      (d.Scans scan.Name).isSome = true ∧
      d.CheckResults scan.Name = none ∧
      (∀ m, m ≠ scan.Name →
        d.CheckResults m =
          (if scans.any (fun s => s.Name == m) then
            (match c.checkResults m with
             | Except.ok rs => some rs
             | Except.error _ => none)
          else none)) := by
  unfold CollectAllData collectOperatorStatus
  rw [hsu, hsc, hop]
  refine ⟨_, rfl, ?_, ?_, ?_⟩
  · exact foldl_collectScanStep_Scans_isSome c scans _ scan.Name
      (Or.inr (by simp; exact ⟨scan, hmem, rfl⟩))
  · rw [foldl_collectScanStep_CheckResults]
    have hany : scans.any (fun s => s.Name == scan.Name) = true := by
      simp
      exact ⟨scan, hmem, rfl⟩
    rw [if_pos hany]
    cases hc : c.checkResults scan.Name with
    | ok rs => rw [hc] at hcr; simp [exceptIsError] at hcr
    | error e => simp
  · intro m hm
    rw [foldl_collectScanStep_CheckResults]

/-- A completed scan used by concrete instances. -/
def scanA : ComplianceScan :=
  { Name := "scan-a", Spec := { ScanType := "Node", Profile := "p", Content := "c" },
    Status := { Phase := PhaseDone, Result := ResultCompliant, ErrorMessage := "",
                StartTimestamp := none, Warnings := "" } }

/-- A client whose check-result fetch fails for `scan-a` and succeeds
everywhere else. -/
def c2Client : ComplianceClient :=
  { suites := Except.ok [],
    scans := Except.ok [scanA],
    checkResults := fun n => if n = "scan-a" then Except.error ("boom") else Except.ok [],
    remediations := fun _ => Except.ok [],
    operatorPods := Except.ok [],
    events := fun _ => Except.ok [] }

/-- Witness for `c2_collectAllData_partial_failure` at a concrete client. -/
theorem c2_collectAllData_partial_failure_witness :
    c2Client.suites = Except.ok [] ∧
    c2Client.scans = Except.ok [scanA] ∧
    scanA ∈ [scanA] ∧
    exceptIsError (c2Client.checkResults scanA.Name) = true ∧
    c2Client.operatorPods = Except.ok [] ∧
    (∃ d, CollectAllData c2Client = Except.ok d ∧
      (d.Scans scanA.Name).isSome = true ∧
      d.CheckResults scanA.Name = none ∧
      (∀ m, m ≠ scanA.Name →
        d.CheckResults m =
          (if [scanA].any (fun s => s.Name == m) then
            (match c2Client.checkResults m with
             | Except.ok rs => some rs
             | Except.error _ => none)
          else none))) :=
  ⟨rfl, rfl, by simp, by decide, rfl,
    c2_collectAllData_partial_failure c2Client ([]) ([scanA]) scanA ([]) rfl rfl
      (by simp) (by decide) rfl⟩

/-- A client whose operator-pod listing fails while everything else
succeeds. -/
def c10Client : ComplianceClient :=
  { suites := Except.ok [],
    scans := Except.ok [],
    checkResults := fun _ => Except.ok [],
    remediations := fun _ => Except.ok [],
    operatorPods := Except.error ("pods down"),
    events := fun _ => Except.ok [] }

/-- Witness for `c10_collectAllData_operator_fatal` at a concrete client. -/
theorem c10_collectAllData_operator_fatal_witness :
    c10Client.suites = Except.ok [] ∧
    c10Client.scans = Except.ok [] ∧
    c10Client.operatorPods = Except.error ("pods down") ∧
    CollectAllData c10Client =
      Except.error ("failed to collect operator status: " ++ ("failed to get operator pods: " ++ "pods down")) :=
  ⟨rfl, rfl, rfl,
    c10_collectAllData_operator_fatal c10Client ([]) ([]) ("pods down") rfl rfl rfl⟩

/-- Claim C3: for a scan in phase RUNNING, the StuckScan issues
`DetectStuckScans` emits for it are: exactly the one Critical issue naming
the scan when the start timestamp is present and `now - start` exceeds 30
minutes; none when the elapsed time is at most 30 minutes; and none when
the start timestamp is absent, regardless of `now`. -/
theorem c3_stuckScan_running (now : Int) (scan : ComplianceScan)
    (h : scan.Status.Phase = PhaseRunning) :
    (∀ t, scan.Status.StartTimestamp = some t →
      (now - t > 30 * minute →
        (DetectStuckScans now [scan]).filter (fun i => i.IType == IssueTypeStuckScan) =
          [{ IType := IssueTypeStuckScan, Severity := SeverityCritical,
             Description := "Scan " ++ scan.Name ++ " has been in RUNNING phase for " ++ toString (now - t),
             Resources := [scan.Name],
             Suggestion := "Check scanner pod logs and events. The scan may be stuck due to pod failures, resource constraints, or permission issues." }]) ∧
      (now - t ≤ 30 * minute →
        (DetectStuckScans now [scan]).filter (fun i => i.IType == IssueTypeStuckScan) = [])) ∧
    (scan.Status.StartTimestamp = none →
      (DetectStuckScans now [scan]).filter (fun i => i.IType == IssueTypeStuckScan) = []) := by
  have hL : scan.Status.Phase ≠ PhaseLaunching := by
    rw [h]; decide
  refine ⟨fun t ht => ⟨fun hgt => ?_, fun hle => ?_⟩, fun hnone => ?_⟩
  · by_cases hr : scan.Status.Result = ResultError <;>
      simp [DetectStuckScans, detectStuckScanIssues, h, hL, ht, hgt, hr,
        IssueTypeStuckScan, IssueTypeFailedPod, PhaseRunning, PhaseLaunching]
  · have hngt : ¬ now - t > 30 * minute := not_lt.mpr hle
    by_cases hr : scan.Status.Result = ResultError <;>
      simp [DetectStuckScans, detectStuckScanIssues, h, hL, ht, hngt, hr,
        IssueTypeStuckScan, IssueTypeFailedPod, PhaseRunning, PhaseLaunching]
  · by_cases hr : scan.Status.Result = ResultError <;>
      simp [DetectStuckScans, detectStuckScanIssues, h, hL, hnone, hr,
        IssueTypeStuckScan, IssueTypeFailedPod, PhaseRunning, PhaseLaunching]

/-- A RUNNING scan that started at time 0. -/
def scanRun : ComplianceScan :=
  { Name := "scan-run", Spec := { ScanType := "Node", Profile := "p", Content := "c" },
    Status := { Phase := PhaseRunning, Result := ResultNotAvailable, ErrorMessage := "",
                StartTimestamp := some 0, Warnings := "" } }

/-- Witness for `c3_stuckScan_running` at a concrete RUNNING scan, with
`now` 31 minutes after the start timestamp. -/
theorem c3_stuckScan_running_witness :
    scanRun.Status.Phase = PhaseRunning ∧
    ((∀ t, scanRun.Status.StartTimestamp = some t →
      (1860 - t > 30 * minute →
        (DetectStuckScans 1860 [scanRun]).filter (fun i => i.IType == IssueTypeStuckScan) =
          [{ IType := IssueTypeStuckScan, Severity := SeverityCritical,
             Description := "Scan " ++ scanRun.Name ++ " has been in RUNNING phase for " ++ toString (1860 - t),
             Resources := [scanRun.Name],
             Suggestion := "Check scanner pod logs and events. The scan may be stuck due to pod failures, resource constraints, or permission issues." }]) ∧
      (1860 - t ≤ 30 * minute →
        (DetectStuckScans 1860 [scanRun]).filter (fun i => i.IType == IssueTypeStuckScan) = [])) ∧
    (scanRun.Status.StartTimestamp = none →
      (DetectStuckScans 1860 [scanRun]).filter (fun i => i.IType == IssueTypeStuckScan) = [])) :=
  ⟨rfl, c3_stuckScan_running 1860 scanRun rfl⟩

/-- A Running, Ready operator pod with two containers of 3 restarts each:
no single container exceeds 5 restarts, but the pod's summed restart
count (6) does. -/
def podCex4 : Pod :=
  { Name := "op-1", Phase := PodRunning, Reason := "",
    Conditions := [{ CondType := PodReady, Status := ConditionTrue, Reason := "", Message := "" }],
    ContainerStatuses :=
      [{ Name := "c1", RestartCount := 3,
         State := { Waiting := none, Terminated := none },
         LastTerminationState := { Waiting := none, Terminated := none } },
       { Name := "c2", RestartCount := 3,
         State := { Waiting := none, Terminated := none },
         LastTerminationState := { Waiting := none, Terminated := none } }] }

/-- Claim C4, counterexample: operator health collection flags the POD
when its restart counts SUMMED over containers exceed 5, not "those
containers whose own restart count exceeds 5": a Running and Ready pod
whose two containers each restarted only 3 times still gets a restart
issue recorded (while staying healthy). -/
theorem c4_restart_flag_cex :
    podCex4.ContainerStatuses.all (fun cs => decide (cs.RestartCount ≤ 5)) = true ∧
    podCex4.Phase = PodRunning ∧
    isPodReady podCex4 = true ∧
    (collectOperatorStatusFromPods [podCex4]).IsHealthy = true ∧
    (collectOperatorStatusFromPods [podCex4]).Issues = ["Pod op-1 has restarted 6 times"] := by
  decide

/-- Claim C4 (amended): in operator health collection, a pod gets exactly
one restart-issue string recorded, and exactly when the SUM of its
containers' restart counts exceeds 5; for a Running and Ready pod this
never changes `IsHealthy`, and no other issue string is recorded for it. -/
theorem c4_restart_flag (status : OperatorHealthStatus) (pod : Pod)
    (hphase : pod.Phase = PodRunning) (hready : isPodReady pod = true) :
    (processPod status pod).IsHealthy = status.IsHealthy ∧
    (processPod status pod).Issues =
      status.Issues ++ (if sumRestarts pod > 5 then [restartIssueString pod] else []) := by
  by_cases hr : sumRestarts pod > 5 <;>
    simp [processPod, hphase, hready, hr]

/-- A Running, Ready operator pod with low restart counts. -/
def podOk : Pod :=
  { Name := "op-2", Phase := PodRunning, Reason := "",
    Conditions := [{ CondType := PodReady, Status := ConditionTrue, Reason := "", Message := "" }],
    ContainerStatuses :=
      [{ Name := "c1", RestartCount := 2,
         State := { Waiting := none, Terminated := none },
         LastTerminationState := { Waiting := none, Terminated := none } }] }

/-- Witness for `c4_restart_flag` at a concrete Running and Ready pod. -/
theorem c4_restart_flag_witness :
    podOk.Phase = PodRunning ∧
    isPodReady podOk = true ∧
    ((processPod { OperatorPods := [], IsHealthy := true, Issues := [] } podOk).IsHealthy =
        ({ OperatorPods := [], IsHealthy := true, Issues := [] } : OperatorHealthStatus).IsHealthy ∧
      (processPod { OperatorPods := [], IsHealthy := true, Issues := [] } podOk).Issues =
        ({ OperatorPods := [], IsHealthy := true, Issues := [] } : OperatorHealthStatus).Issues ++
          (if sumRestarts podOk > 5 then [restartIssueString podOk] else [])) :=
  ⟨rfl, by decide,
    c4_restart_flag { OperatorPods := [], IsHealthy := true, Issues := [] } podOk rfl (by decide)⟩

/-- A scan with an ERROR result but an empty error message. -/
def scanCex5 : ComplianceScan :=
  { Name := "s-err", Spec := { ScanType := "", Profile := "", Content := "" },
    Status := { Phase := PhaseDone, Result := ResultError, ErrorMessage := "",
                StartTimestamp := none, Warnings := "" } }

/-- Claim C5, counterexample: a scan whose result is ERROR but whose error
message is empty yields NO issue at all from `AnalyzeScanFailure` — the
Critical issue is gated on a non-empty error message, so "Critical issue
if and only if the result is Error" fails. -/
theorem c5_analyzeScanFailure_cex :
    scanCex5.Status.Result = ResultError ∧
    AnalyzeScanFailure scanCex5 = [] := by
  decide

/-- Claim C5 (amended): `AnalyzeScanFailure` returns the Critical issue
quoting the scan's error message if and only if the result is ERROR or
NON-COMPLIANT and the error message is non-empty; it returns the Warning
issue suggesting remediation review if and only if the result is
NON-COMPLIANT; and it returns no issues for any other result. -/
theorem c5_analyzeScanFailure (scan : ComplianceScan) :
    AnalyzeScanFailure scan =
      (if (scan.Status.Result = ResultError ∨ scan.Status.Result = ResultNonCompliant) ∧
          ¬ scan.Status.ErrorMessage = "" then
         [{ IType := IssueTypeFailedPod, Severity := SeverityCritical,
            Description := "Scan " ++ scan.Name ++ " failed: " ++ scan.Status.ErrorMessage,
            Resources := [scan.Name],
            Suggestion := "Review the error message and check scanner pod logs for more details." }]
       else []) ++
      (if scan.Status.Result = ResultNonCompliant then
         [{ IType := IssueTypeMisconfiguration, Severity := SeverityWarning,
            Description := "Scan " ++ scan.Name ++ " found compliance violations",
            Resources := [scan.Name],
            Suggestion := "Review failed checks and apply available remediations. Some checks may require manual remediation." }]
       else []) := by
  unfold AnalyzeScanFailure
  by_cases h1 : scan.Status.Result = ResultError <;>
    by_cases h2 : scan.Status.Result = ResultNonCompliant <;>
      by_cases h3 : scan.Status.ErrorMessage = "" <;>
        simp [h1, h2, h3]

/-! ## Helper lemmas for the OOM rule -/

lemma filter_oom_waitingIssues (pod : Pod) (cs : ContainerStatus) :
    (waitingIssues pod cs).filter (fun i => i.IType == IssueTypeOOM) = [] := by
  unfold waitingIssues
  cases cs.State.Waiting with
  | none => rfl
  | some w =>
      by_cases h1 : w.Reason = "ImagePullBackOff" ∨ w.Reason = "ErrImagePull" <;>
        by_cases h2 : w.Reason = "CrashLoopBackOff" <;>
          simp [h1, h2, IssueTypeFailedPod, IssueTypeOOM]

lemma filter_oom_oomIssues (pod : Pod) (cs : ContainerStatus) :
    (oomIssues pod cs).filter (fun i => i.IType == IssueTypeOOM) = oomIssues pod cs := by
  unfold oomIssues
  cases cs.LastTerminationState.Terminated with
  | none => rfl
  | some t =>
      by_cases h : t.Reason = "OOMKilled" <;> simp [h, IssueTypeOOM]

lemma filter_oom_restartIssues (pod : Pod) (cs : ContainerStatus) :
    (restartIssues pod cs).filter (fun i => i.IType == IssueTypeOOM) = [] := by
  unfold restartIssues
  by_cases h : cs.RestartCount > 5 <;> simp [h, IssueTypeFailedPod, IssueTypeOOM]

lemma filter_oom_flatMap_waiting_oom (pod : Pod) (l : List ContainerStatus) :
    ((l.flatMap (fun cs => waitingIssues pod cs ++ oomIssues pod cs)).filter
        (fun i => i.IType == IssueTypeOOM)) =
      l.flatMap (oomIssues pod) := by
  induction l with
  | nil => rfl
  | cons cs t ih =>
      simp only [List.flatMap_cons, List.filter_append, filter_oom_waitingIssues,
        filter_oom_oomIssues, ih, List.nil_append]

lemma filter_oom_flatMap_restart (pod : Pod) (l : List ContainerStatus) :
    ((l.flatMap (restartIssues pod)).filter (fun i => i.IType == IssueTypeOOM)) = [] := by
  induction l with
  | nil => rfl
  | cons cs t ih =>
      simp only [List.flatMap_cons, List.filter_append, filter_oom_restartIssues, ih,
        List.append_nil]

/-- A pod with one OOM-killed container and one healthy container. -/
def podOomTwo : Pod :=
  { Name := "scanner-1", Phase := PodRunning, Reason := "",
    Conditions := [],
    ContainerStatuses :=
      [{ Name := "c1", RestartCount := 0,
         State := { Waiting := none, Terminated := none },
         LastTerminationState := { Waiting := none, Terminated := some { Reason := "OOMKilled" } } },
       { Name := "c2", RestartCount := 0,
         State := { Waiting := none, Terminated := none },
         LastTerminationState := { Waiting := none, Terminated := none } }] }

/-- Claim C7: among the issues `DetectFailedPods` emits for a pod, those of
type OutOfMemory are exactly one Critical issue naming the pod per
container whose last-terminated reason is OOMKilled, and nothing for other
containers; in particular the concrete pod with one OOM-killed and one
healthy container yields exactly one OutOfMemory issue. -/
theorem c7_oom_rule (pod : Pod) :
    (DetectFailedPods [pod]).filter (fun i => i.IType == IssueTypeOOM) =
      pod.ContainerStatuses.flatMap (fun cs =>
        match cs.LastTerminationState.Terminated with
        | some t =>
            if t.Reason = "OOMKilled" then
              [{ IType := IssueTypeOOM, Severity := SeverityCritical,
                 Description := "Container " ++ cs.Name ++ " in pod " ++ pod.Name ++ " was killed due to out of memory",
                 Resources := [pod.Name],
                 Suggestion := "Increase memory limits for scanner pods in ScanSetting. The scan requires more memory than allocated." }]
            else []
        | none => []) ∧
    ((DetectFailedPods [podOomTwo]).filter (fun i => i.IType == IssueTypeOOM)).length = 1 := by
  constructor
  · show (DetectFailedPods [pod]).filter (fun i => i.IType == IssueTypeOOM) =
      pod.ContainerStatuses.flatMap (oomIssues pod)
    simp only [DetectFailedPods, List.flatMap_cons, List.flatMap_nil, List.append_nil,
      podFailedIssues, List.filter_append, filter_oom_flatMap_waiting_oom,
      filter_oom_flatMap_restart, List.append_nil]
    by_cases hp : pod.Phase = PodFailed <;>
      simp [hp, IssueTypeFailedPod, IssueTypeOOM]
  · decide

/-- A Warning event whose message contains the keyword `Forbidden`. -/
def eventWarn : Event :=
  { EType := EventTypeWarning, Message := "Forbidden: cannot list pods",
    InvolvedObject := { Kind := "Pod", Name := "scanner-pod-1" } }

/-- A client returning exactly one Warning permission event per scan. -/
def c6Client : ComplianceClient :=
  { suites := Except.ok [],
    scans := Except.ok [],
    checkResults := fun _ => Except.ok [],
    remediations := fun _ => Except.ok [],
    operatorPods := Except.ok [],
    events := fun _ => Except.ok [eventWarn] }

/-- Claim C6: when the event listing for a scan succeeds,
`DetectPermissionIssuesForScan` returns the per-event issues; a
Warning-type event whose message contains at least one of the fixed
permission keywords yields exactly one Critical Permission issue whose
resources are the scan name and the event's involved object name
(multiple matching keywords still yield the single issue); and a
Normal-type event yields no issue whatever its message. -/
theorem c6_permission_rule (c : ComplianceClient) (scanName : String)
    (events : List Event) (event : Event)
    (hev : c.events scanName = Except.ok events) :
    DetectPermissionIssuesForScan c scanName =
      Except.ok (events.flatMap (permissionIssuesForEvent scanName)) ∧
    (event.EType = EventTypeWarning → hasPermissionKeyword event.Message = true →
      permissionIssuesForEvent scanName event =
        [{ IType := IssueTypePermission, Severity := SeverityCritical,
           Description := "Permission issue in scan " ++ scanName ++ ": " ++ event.Message,
           Resources := [scanName, event.InvolvedObject.Name],
           Suggestion := "Check ServiceAccount permissions and RBAC configuration. The compliance operator may not have sufficient permissions." }]) ∧
    (event.EType = EventTypeNormal → permissionIssuesForEvent scanName event = []) := by
  refine ⟨by simp [DetectPermissionIssuesForScan, hev], fun hw hk => ?_, fun hn => ?_⟩
  · simp [permissionIssuesForEvent, hw, hk]
  · simp [permissionIssuesForEvent, hn, EventTypeNormal, EventTypeWarning]

/-- Witness for `c6_permission_rule` at the concrete Warning event with
message `Forbidden: cannot list pods`. -/
theorem c6_permission_rule_witness :
    c6Client.events ("scan-x") = Except.ok [eventWarn] ∧
    eventWarn.EType = EventTypeWarning ∧
    hasPermissionKeyword eventWarn.Message = true ∧
    (DetectPermissionIssuesForScan c6Client ("scan-x") =
        Except.ok ([eventWarn].flatMap (permissionIssuesForEvent ("scan-x"))) ∧
      (eventWarn.EType = EventTypeWarning → hasPermissionKeyword eventWarn.Message = true →
        permissionIssuesForEvent ("scan-x") eventWarn =
          [{ IType := IssueTypePermission, Severity := SeverityCritical,
             Description := "Permission issue in scan " ++ "scan-x" ++ ": " ++ eventWarn.Message,
             Resources := ["scan-x", eventWarn.InvolvedObject.Name],
             Suggestion := "Check ServiceAccount permissions and RBAC configuration. The compliance operator may not have sufficient permissions." }]) ∧
      (eventWarn.EType = EventTypeNormal → permissionIssuesForEvent ("scan-x") eventWarn = [])) :=
  ⟨rfl, rfl, by decide,
    c6_permission_rule c6Client ("scan-x") [eventWarn] eventWarn rfl⟩

/-- Scan statuses of a suite with one COMPLIANT and one NON-COMPLIANT
scan. -/
def scanStatusesC9 : List ComplianceScanStatusWrapper :=
  [{ Name := "s1", Phase := PhaseDone, Result := ResultCompliant },
   { Name := "s2", Phase := PhaseDone, Result := ResultNonCompliant }]

/-- Claim C9: the per-suite result-count table of the status overview is
rendered by iterating a Go map (`for result, count := range resultCounts`),
whose enumeration order is unspecified.  For the suite with one COMPLIANT
and one NON-COMPLIANT scan, the two enumerations of the same map contents
(both permutations of the same entry list, matching `countScanResults`)
render to different text, so the output is NOT independent of map
traversal order. -/
theorem c9_resultCounts_order_dependent :
    countScanResults scanStatusesC9 ResultCompliant = 1 ∧
    countScanResults scanStatusesC9 ResultNonCompliant = 1 ∧
    List.Perm [(ResultCompliant, 1), (ResultNonCompliant, 1)]
      [(ResultNonCompliant, 1), (ResultCompliant, 1)] ∧
    formatResultCountLines [(ResultCompliant, 1), (ResultNonCompliant, 1)] ≠
      formatResultCountLines [(ResultNonCompliant, 1), (ResultCompliant, 1)] := by
  refine ⟨by decide, by decide, ?_, by decide⟩
  exact List.Perm.swap _ _ _
